import Mathlib

set_option maxRecDepth 16384
set_option maxHeartbeats 1600000

/-!
Shallow embedding of the conversational flow controller in `app.py`
(college/major research assistant).  Python strings are modelled as Lean
`String`; the helpers below reproduce the exact semantics of the Python
string operations the source uses (`str.strip`, `str.split`, `str.replace`,
`str.isdigit`, `int`, `str.upper`, `str.lower`, `str.startswith`).
The external OpenAI gateway is modelled as a trace of outcomes (one entry
per call, in call order): `none` stands for a raised exception, `some s`
for a reply with content `s`.  The CSV interaction log is modelled as a
list of records; the sanitizer (`bleach.clean`) is an external capability
passed in as a function.
-/

/-- Characters treated as whitespace by Python `str.strip()` / `\s` (ASCII range). -/
def pyIsSpace (c : Char) : Bool :=
  c = ' ' || c = '\t' || c = '\n' || c = '\r' || c = '\x0b' || c = '\x0c'

/-- Drop characters satisfying `p` from both ends of a character list. -/
def stripEnds (p : Char → Bool) (l : List Char) : List Char :=
  ((l.dropWhile p).reverse.dropWhile p).reverse

/-- Python `s.strip()` (no argument): strip whitespace from both ends. -/
def pyStrip (s : String) : String :=
  String.mk (stripEnds pyIsSpace s.data)

/-- Python `s.strip(chars)`: strip any of the given characters from both ends. -/
def pyStripSet (cs : List Char) (s : String) : String :=
  String.mk (stripEnds (fun c => cs.contains c) s.data)

/-- Python `s.lower()` (ASCII case mapping suffices for this program). -/
def pyLower (s : String) : String :=
  String.mk (s.data.map Char.toLower)

/-- Python `s.upper()` (ASCII case mapping suffices for this program). -/
def pyUpper (s : String) : String :=
  String.mk (s.data.map Char.toUpper)

/-- Python `s.replace(c, "")` for a single-character pattern: remove every
occurrence of `c`. -/
def pyRemoveChar (c : Char) (s : String) : String :=
  String.mk (s.data.filter (fun x => x ≠ c))

/-- Worker for `pySplitOn`: splits on the separator `s0 :: st`.  The `Nat`
argument counts separator characters still to be skipped after a match. -/
def splitOnGo (s0 : Char) (st : List Char) : Nat → List Char → List (List Char)
  | _, [] => [[]]
  | Nat.succ k, _ :: rest => splitOnGo s0 st k rest
  | 0, c :: rest =>
    if c = s0 && List.isPrefixOf st rest then
      [] :: splitOnGo s0 st st.length rest
    else
      match splitOnGo s0 st 0 rest with
      | [] => [[c]]
      | h :: t => (c :: h) :: t

/-- Python `s.split(sep)` for a non-empty separator: keeps empty pieces,
`"".split(sep) = [""]`. -/
def pySplitOn (sep : String) (s : String) : List String :=
  match sep.data with
  | [] => [s]
  | s0 :: st => (splitOnGo s0 st 0 s.data).map String.mk

/-- Python `sep.join(xs)`. -/
def pyJoin (sep : String) : List String → String
  | [] => ""
  | [x] => x
  | x :: xs => x ++ sep ++ pyJoin sep xs

/-- Python `s.isdigit()` (ASCII digits; the program only feeds it ASCII input). -/
def pyIsdigit (s : String) : Bool :=
  !s.data.isEmpty && s.data.all Char.isDigit

/-- Python `int(s)` on a string of digits. -/
def digitsToNat (l : List Char) : Nat :=
  l.foldl (fun n c => n * 10 + (c.toNat - 48)) 0

/-- The effect of `re.sub(r'^\d+[\.\)]\s*', '', line)`: remove a leading run
of digits followed by `.` or `)` and any following whitespace. -/
def stripOrdinal (l : List Char) : List Char :=
  let ds := l.takeWhile Char.isDigit
  if ds.isEmpty then l
  else
    match l.drop ds.length with
    | [] => l
    | c :: rest => if c = '.' || c = ')' then rest.dropWhile pyIsSpace else l

/-- Preamble stoplist from `parse_majors_list`. -/
def stoplist : List String := ["here", "the", "this", "certainly"]

/-- Model of the check `line.lower().startswith(('here', 'the', 'this', 'certainly'))`. -/
def startsWithStop (line : String) : Bool :=
  stoplist.any (fun p => List.isPrefixOf p.data (pyLower line).data)

/-- Model of `parse_majors_list` from `app.py`: split the generated text on newlines,
strip bullet characters and a leading numeric ordinal from each line, remove
`*`, `"` and `:`, drop short lines and stoplisted preamble, keep at most 4. -/
def parse_majors_list (majors_str : String) : List String :=
  if majors_str = "" then []
  else
    let lines := pySplitOn "\n" majors_str
    let step := fun (acc : List String) (line : String) =>
      let line := pyStripSet [' ', '-', '*', '•', '\t'] line
      if line = "" then acc
      else
        let line := String.mk (stripOrdinal line.data)
        let line := pyStrip (pyRemoveChar ':' (pyRemoveChar '"' (pyRemoveChar '*' line)))
        if line ≠ "" ∧ 2 < line.length ∧ startsWithStop line = false then
          acc ++ [line]
        else acc
    (lines.foldl step []).take 4

/-- Model of `format_response` from `app.py`. -/
def format_response (sections : List String) : String :=
  pyJoin "<section_break>" sections

/-! ## Interaction log (`user_choices.csv` modelled as a list of records) -/

/-- One CSV row of `user_choices.csv`. -/
structure InteractionRecord where
  session_id : String
  name : String
  timestamp : String
  current_state : String
  major_selected : String
  college_researched : String
deriving Repr, DecidableEq

/-- Model of `add_interaction` from `app.py`: append one row; `None` fields are
written as empty strings (`name or ''` etc.).  The timestamp is supplied by
the caller (in the source it is `datetime.utcnow()`). -/
def add_interaction (log : List InteractionRecord) (session_id : String)
    (name current_state major_selected college_researched : Option String)
    (timestamp : String) : List InteractionRecord :=
  log ++ [⟨session_id, name.getD "", timestamp, current_state.getD "",
          major_selected.getD "", college_researched.getD ""⟩]

/-- Model of `get_last_interaction` from `app.py`: last row with the given session id. -/
def get_last_interaction (log : List InteractionRecord) (session_id : String) :
    Option InteractionRecord :=
  (log.filter (fun row => row.session_id == session_id)).getLast?

/-- Model of `get_user_majors` from `app.py`: all non-empty `major_selected` values of
the session, in insertion order. -/
def get_user_majors (log : List InteractionRecord) (session_id : String) :
    List String :=
  ((log.filter (fun row => row.session_id == session_id && row.major_selected != "")).map
    InteractionRecord.major_selected)

/-! ## Text generation gateway

`call_openai_api` wraps `openai.ChatCompletion.create`.  The external service
is modelled by a trace: the list of outcomes of the successive calls, in call
order.  `none` models the `except` branch (any exception: the function logs
and returns `""`); `some s` models a successful reply whose message content
is `s`, which the source then strips.  An exhausted trace also counts as
failure.  The prompt is passed through faithfully but the service outcome in
this model does not depend on it (the real service is nondeterministic). -/

abbrev Oracle := List (Option String)

/-- Model of `call_openai_api` from `app.py`: returns the (stripped) reply or `""` on
failure, together with the rest of the outcome trace.  `max_tokens` only
parameterizes the external call and is omitted. -/
def call_openai_api (oracle : Oracle) (_prompt : String) : String × Oracle :=
  match oracle with
  | [] => ("", [])
  | none :: rest => ("", rest)
  | some s :: rest => (pyStrip s, rest)

/-- Prompt built in the `ASK_CAREER` branch of `chat`. -/
def majors_list_prompt (career_field : String) : String :=
  "List exactly 4 college majors suitable for a career in " ++ career_field ++
  ". List ONLY the major names, numbered 1-4. No descriptions or extra text."

/-- Prompt built in `get_major_sections`. -/
def major_sections_prompt (major : String) : String :=
  "Provide detailed information about the " ++ major ++
  " major tailored for high school students. Use the following HTML format with bold headings and bullet points:\n\n" ++
  "<h2>PROGRAM OVERVIEW</h2>\n<ul>\n<li><strong>Program Description:</strong> </li>\n<li><strong>Key Features:</strong> </li>\n<li><strong>Duration and Structure:</strong> </li>\n</ul>\n\n" ++
  "<h2>CORE SKILLS</h2>\n<ul>\n<li><strong>Technical Abilities:</strong> </li>\n<li><strong>Professional Skills:</strong> </li>\n<li><strong>Key Competencies:</strong> </li>\n</ul>\n\n" ++
  "<h2>COURSEWORK</h2>\n<ul>\n<li><strong>Foundation Courses:</strong> </li>\n<li><strong>Advanced Topics:</strong> </li>\n<li><strong>Specializations:</strong> </li>\n</ul>\n\n" ++
  "<h2>CAREER PATHS</h2>\n<ul>\n<li><strong>Entry-Level Positions:</strong> </li>\n<li><strong>Career Progression:</strong> </li>\n<li><strong>Industry Sectors:</strong> </li>\n</ul>\n\n" ++
  "Ensure clarity, conciseness, and relevance to high school students considering this major.\n"

/-- Basic-information prompt built in `get_college_info`. -/
def college_basic_prompt (college : String) : String :=
  "Provide detailed information about " ++ college ++
  " tailored for high school students. Use the following HTML format with bold headings and bullet points:\n\n" ++
  "<h2>INSTITUTION OVERVIEW</h2>\n<ul>\n<li><strong>Type and Location:</strong> </li>\n<li><strong>Size and Environment:</strong> </li>\n<li><strong>Key Features:</strong> </li>\n</ul>\n\n" ++
  "<h2>ACADEMIC PROFILE</h2>\n<ul>\n<li><strong>Notable Programs:</strong> </li>\n<li><strong>Research Opportunities:</strong> </li>\n<li><strong>Academic Resources:</strong> </li>\n</ul>\n\n" ++
  "Ensure clarity, conciseness, and relevance to high school students considering this college.\n"

/-- Per-major prompt built in `get_college_info`. -/
def college_major_prompt (major college : String) : String :=
  "Provide detailed information about the " ++ major ++ " program at " ++ college ++
  " tailored for high school students. Use the following HTML format with bold headings and bullet points:\n\n" ++
  "<h2>" ++ pyUpper major ++ " PROGRAM</h2>\n<ul>\n<li><strong>Program Availability:</strong> </li>\n<li><strong>Department Details:</strong> </li>\n<li><strong>Special Features:</strong> </li>\n<li><strong>Career Support:</strong> </li>\n</ul>\n\n" ++
  "Ensure clarity, conciseness, and relevance to high school students considering this major at " ++ college ++ ".\n"

/-- Model of `[section.strip() for section in re.split(r'<h2>', response) if section.strip()]`
followed by re-prefixing each section with `<h2>`. -/
def splitSectionsH2 (response : String) : List String :=
  (((pySplitOn "<h2>" response).map pyStrip).filter (fun sec => sec ≠ "")).map
    (fun sec => "<h2>" ++ sec)

/-- Fallback section of `get_major_sections`. -/
def majorFallbackSection : String :=
  "<h2>PROGRAM OVERVIEW</h2><ul><li><strong>Program Description:</strong> Unable to retrieve information at this time.</li></ul>"

/-- Model of `get_major_sections` from `app.py`. -/
def get_major_sections (oracle : Oracle) (major : String) : List String × Oracle :=
  let r := call_openai_api oracle (major_sections_prompt major)
  (if r.1 = "" then [majorFallbackSection] else splitSectionsH2 r.1, r.2)

/-- Fallback section for the basic-information call in `get_college_info`. -/
def collegeBasicFallback : String :=
  "<h2>INSTITUTION OVERVIEW</h2><ul><li><strong>Type and Location:</strong> Unable to retrieve basic college info at this time.</li></ul>"

/-- Fallback section for a per-major call in `get_college_info`. -/
def collegeMajorFallback (major : String) : String :=
  "<h2>" ++ pyUpper major ++ " PROGRAM</h2><ul><li><strong>Program Availability:</strong> Unable to retrieve major-specific information at this time.</li></ul>"

/-- Section used by `get_college_info` when no majors were selected yet. -/
def noMajorsSection : String :=
  "<h2>MAJOR-SPECIFIC INFORMATION</h2><ul><li>No majors have been selected yet, so no tailored information is available.</li></ul>"

/-- One iteration of the per-major loop of `get_college_info` (app.py 264-283):
issue the per-major generation call on the remaining trace and append either
the split sections of its reply or the per-major fallback section. -/
def college_major_step (college : String) (acc : List String × Oracle)
    (major : String) : List String × Oracle :=
  let m := call_openai_api acc.2 (college_major_prompt major college)
  (acc.1 ++
    (if m.1 ≠ "" then splitSectionsH2 m.1 else [collegeMajorFallback major]),
   m.2)

/-- Model of `get_college_info` from `app.py`: basic-info call (with fallback), then one
sequential call per selected major (each with fallback), or a fixed section if
no majors were selected. -/
def get_college_info (oracle : Oracle) (college : String)
    (user_majors : List String) : List String × Oracle :=
  let b := call_openai_api oracle (college_basic_prompt college)
  let basicSections :=
    if b.1 ≠ "" then splitSectionsH2 b.1 else [collegeBasicFallback]
  let rest :=
    if user_majors ≠ [] then
      user_majors.foldl (college_major_step college) ([], b.2)
    else ([noMajorsSection], b.2)
  (basicSections ++ rest.1, rest.2)

/-! ## The `/chat` endpoint -/

/-- What a turn of `chat` produces: the new interaction log, the JSON payload
fields (`response`, `session_id`), and the unconsumed part of the gateway
outcome trace. -/
structure ChatResult where
  log : List InteractionRecord
  response : String
  session_id : String
  oracle : Oracle
deriving Repr, DecidableEq

/-- Greeting returned for an `INIT` message. -/
def initResponse : String :=
  "Hello! I\x27m Clancy, your College Research Assistant. I\x27m here to help you explore colleges and majors.<br><br>Please type your name to begin:<br><strong>[ASK_NAME]</strong>"

/-- Menu re-prompt for an unrecognized `MAIN_MENU` choice. -/
def menuReprompt : String :=
  "Please select one of the options below:<br>- Explore Careers and Majors<br>- Research Colleges<br>- Get Application Advice<br><strong>[MAIN_MENU]</strong>"

/-- Response of the `ASK_CAREER` branch when the generation call fails. -/
def careerApiFailResponse : String :=
  "I\x27m having trouble suggesting majors right now. Please try again.<br><strong>[ASK_CAREER]</strong>"

/-- Response of the `ASK_CAREER` branch when the text does not parse to 4 majors. -/
def careerParseFailResponse : String :=
  "I\x27m having trouble processing the majors. Please try another career field.<br><strong>[ASK_CAREER]</strong>"

/-- Response of the `ASK_COLLEGE` branch when `get_college_info` returned no sections. -/
def collegeFailResponse : String :=
  "I\x27m having trouble getting information about this college. Please try another.<br><strong>[ASK_COLLEGE]</strong>"

/-- Response of the unhandled-state branch. -/
def unexpectedStateResponse : String :=
  "I encountered an unexpected state. Let\x27s start over.<br><br><strong>Options:</strong><br>- Explore Careers and Majors<br>- Research Colleges<br>- Get Application Advice<br><strong>[MAIN_MENU]</strong>"

/-- Body of the top-level `except` handler of `/chat` (returned with
status 500; the only path that does not go through the state dispatch). -/
def chat_error_response : String :=
  "I encountered an error. Please try again.<br><strong>[MAIN_MENU]</strong>"

/-- The four static advice sections of the "get application advice" branch. -/
def adviceSections : List String :=
  ["<h2>APPLICATION PLANNING</h2>\n<ul>\n<li><strong>Start Early (Junior Year)</strong></li>\n<li><strong>Research Schools</strong></li>\n<li><strong>Create a Timeline</strong></li>\n<li><strong>Gather Materials</strong></li>\n</ul>",
   "<h2>KEY COMPONENTS</h2>\n<ul>\n<li><strong>Personal Essays</strong></li>\n<li><strong>Recommendation Letters</strong></li>\n<li><strong>Test Scores</strong></li>\n<li><strong>Activities List</strong></li>\n</ul>",
   "<h2>WRITING TIPS</h2>\n<ul>\n<li><strong>Be Authentic</strong></li>\n<li><strong>Show, Don\x27t Tell</strong></li>\n<li><strong>Start Early</strong></li>\n<li><strong>Get Feedback</strong></li>\n</ul>",
   "<h2>FINAL STEPS</h2>\n<ul>\n<li><strong>Double Check Everything</strong></li>\n<li><strong>Meet Deadlines</strong></li>\n<li><strong>Keep Copies</strong></li>\n<li><strong>Follow Up</strong></li>\n</ul>"]

/-- Selection logic of the `SHOW_MAJORS` branch of `chat` (lines 447-456 of
`app.py`): an all-digits message is interpreted as a 1-based index
(`int(user_message) - 1`, accepted iff `0 <= index < len(majors)`);
otherwise the raw message must match a stored major exactly
(`user_message in majors`); anything else selects nothing. -/
def show_majors_selection (majors : List String) (user_message : String) :
    Option String :=
  if pyIsdigit user_message then
    let idx : Int := (digitsToNat user_message.data : Int) - 1
    if 0 ≤ idx ∧ idx < (majors.length : Int) then
      some (majors.getD idx.toNat "")
    else none
  else if majors.contains user_message then some user_message
  else none

/-- Model of `"<br>".join(...)` over `enumerate(majors, 1)` — note the
source enumerates from 1 and then adds 1 again, so the displayed numbering
starts at 2; reproduced faithfully. -/
def majorsHtml (majors : List String) : String :=
  pyJoin "<br>" (majors.enum.map (fun p => toString (p.1 + 2) ++ ". " ++ p.2))

/-- The `/chat` POST handler from `app.py`.

Inputs: the gateway outcome trace, the external sanitizer (`bleach.clean`),
the fresh uuid used if the request carries no session id, the timestamp
value used for appended rows, the current interaction log, and the request
fields `message` and `session_id`.  The body never raises, so the top-level
`except` branch of the source is unreachable in this model; its constant
payload is `chat_error_response`. -/
def chat (oracle : Oracle) (sanitize : String → String) (freshId now : String)
    (log : List InteractionRecord) (message : String)
    (client_session_id : Option String) : ChatResult :=
  let user_message := pyStrip message
  let noClientId := client_session_id.getD "" = ""
  let session_id := if noClientId then freshId else client_session_id.getD ""
  let log1 :=
    if noClientId then
      add_interaction log session_id none (some "ASK_NAME") none none now
    else log
  if pyUpper user_message = "INIT" then
    { log := log1, response := initResponse, session_id, oracle }
  else
    let last := get_last_interaction log1 session_id
    let current_state := (last.map InteractionRecord.current_state).getD "ASK_NAME"
    if current_state = "ASK_NAME" then
      let name := sanitize user_message
      { log := add_interaction log1 session_id (some name) (some "MAIN_MENU") none none now,
        response := "Nice to meet you, " ++ name ++
          "! How can I help you today?<br><br><strong>Options:</strong><br>- Explore Careers and Majors<br>- Research Colleges<br>- Get Application Advice<br><strong>[MAIN_MENU]</strong>",
        session_id, oracle }
    else if current_state = "MAIN_MENU" then
      let choice := pyLower user_message
      if choice = "explore careers and majors" then
        { log := add_interaction log1 session_id none (some "ASK_CAREER") none none now,
          response := "What career field are you interested in?<br><strong>[ASK_CAREER]</strong>",
          session_id, oracle }
      else if choice = "research colleges" then
        { log := add_interaction log1 session_id none (some "ASK_COLLEGE") none none now,
          response := "Which college would you like to learn about?<br><strong>[ASK_COLLEGE]</strong>",
          session_id, oracle }
      else if choice = "get application advice" then
        { log := add_interaction log1 session_id none (some "MAIN_MENU") none none now,
          response := format_response adviceSections ++ "<br><strong>[MAIN_MENU]</strong>",
          session_id, oracle }
      else
        { log := log1, response := menuReprompt, session_id, oracle }
    else if current_state = "ASK_CAREER" then
      let career_field := sanitize user_message
      let r := call_openai_api oracle (majors_list_prompt career_field)
      if r.1 = "" then
        { log := log1, response := careerApiFailResponse, session_id, oracle := r.2 }
      else
        let majors := parse_majors_list r.1
        if majors.length ≠ 4 then
          { log := log1, response := careerParseFailResponse, session_id, oracle := r.2 }
        else
          { log := add_interaction log1 session_id none (some "SHOW_MAJORS")
                     (some (pyJoin ", " majors)) none now,
            response := "Here are some majors to consider:<br><br>" ++ majorsHtml majors ++
              "<br><br>Select one to learn more by typing the number or the name:<br><strong>[SHOW_MAJORS]</strong>",
            session_id, oracle := r.2 }
    else if current_state = "SHOW_MAJORS" then
      -- `last` is necessarily `some` here (otherwise `current_state` would be
      -- "ASK_NAME"); `last_interaction['major_selected'].split(", ")`:
      let majors := pySplitOn ", " ((last.map InteractionRecord.major_selected).getD "")
      match show_majors_selection majors user_message with
      | some selected_major =>
        let r := get_major_sections oracle selected_major
        { log := add_interaction log1 session_id none (some "MAIN_MENU")
                   (some selected_major) none now,
          response := format_response r.1 ++
            "<br>What else would you like to know?<br><strong>[MAIN_MENU]</strong>",
          session_id, oracle := r.2 }
      | none =>
        { log := log1,
          response := "Please select a major from the list by typing the number or the name:<br><br>" ++
            majorsHtml majors ++ "<br><strong>[SHOW_MAJORS]</strong>",
          session_id, oracle }
    else if current_state = "ASK_COLLEGE" then
      let college_name := sanitize user_message
      let user_majors := get_user_majors log1 session_id
      let log2 := add_interaction log1 session_id none (some "MAIN_MENU") none
                    (some college_name) now
      let r := get_college_info oracle college_name user_majors
      if r.1 = [] then
        { log := log2, response := collegeFailResponse, session_id, oracle := r.2 }
      else
        { log := log2,
          response := format_response r.1 ++
            "<br>What else would you like to know?<br><strong>[MAIN_MENU]</strong>",
          session_id, oracle := r.2 }
    else
      { log := add_interaction log1 session_id none (some "MAIN_MENU") none none now,
        response := unexpectedStateResponse, session_id, oracle }

/-! ## The state-tag wire contract -/

/-- The five conversation states. -/
def stateTags : List String :=
  ["ASK_NAME", "MAIN_MENU", "ASK_CAREER", "SHOW_MAJORS", "ASK_COLLEGE"]

/-- The wire form of a state tag: `<br><strong>[STATE]</strong>`. -/
def stateTagToken (t : String) : String := "<br><strong>[" ++ t ++ "]</strong>"

/-- The response text ends with the wire form of one of the five state tags. -/
def HasStateTag (resp : String) : Prop :=
  ∃ t ∈ stateTags, (stateTagToken t).data <:+ resp.data

instance (resp : String) : Decidable (HasStateTag resp) := by
  unfold HasStateTag; infer_instance

theorem string_data_append (a b : String) : (a ++ b).data = a.data ++ b.data := by
  cases a; cases b; rfl

theorem hasStateTag_append (a b : String) (h : HasStateTag b) :
    HasStateTag (a ++ b) := by
  obtain ⟨t, ht, hs⟩ := h
  exact ⟨t, ht, by rw [string_data_append]; exact hs.trans (List.suffix_append _ _)⟩

/-! ## Concrete scenario logs used by witnesses and counterexamples -/

/-- Session "S" after the opening `INIT` turn (no session id supplied yet,
fresh id "S"): one `ASK_NAME` record. -/
def c3_log1 : List InteractionRecord :=
  (chat [] id "S" "t0" [] "INIT" none).log

/-- Session "S" after additionally answering the name prompt with "Jordan". -/
def c3_log2 : List InteractionRecord :=
  (chat [] id "F" "t1" c3_log1 "Jordan" (some "S")).log

/-- Session "S" after additionally picking "Explore Careers and Majors" from
the main menu: the `ASK_CAREER` record is appended with no name supplied. -/
def c3_log3 : List InteractionRecord :=
  (chat [] id "F" "t2" c3_log2 "Explore Careers and Majors" (some "S")).log

/-- Session "S" sitting in `ASK_COLLEGE` with one selected major "M" in its
history. -/
def c10_log : List InteractionRecord :=
  [⟨"S", "Jordan", "t0", "MAIN_MENU", "M", ""⟩,
   ⟨"S", "", "t1", "ASK_COLLEGE", "", ""⟩]

/-- Session "S" sitting in `ASK_COLLEGE` with one selected major "Biology". -/
def c6_log : List InteractionRecord :=
  [⟨"S", "Jordan", "t0", "MAIN_MENU", "Biology", ""⟩,
   ⟨"S", "", "t1", "ASK_COLLEGE", "", ""⟩]

/-- Session "S" sitting in `ASK_CAREER`. -/
def c2_log : List InteractionRecord :=
  [⟨"S", "Jordan", "t0", "ASK_CAREER", "", ""⟩]

/-- Session "S" sitting in `MAIN_MENU`. -/
def c7_log : List InteractionRecord :=
  [⟨"S", "Jordan", "t0", "MAIN_MENU", "", ""⟩]

/-- Session "S" sitting in `SHOW_MAJORS` with the four stored majors of the
spec example. -/
def c8_log : List InteractionRecord :=
  [⟨"S", "Jordan", "t0", "SHOW_MAJORS", "Biology, Chemistry, Physics, Math", ""⟩]

/-- Session "S" sitting in `SHOW_MAJORS` whose stored majors are themselves
digit strings. -/
def c9_digit_log : List InteractionRecord :=
  [⟨"S", "Jordan", "t0", "SHOW_MAJORS", "10, 20", ""⟩]

/-! ## Helper lemmas shared by several claims -/

theorem call_openai_api_fst_of_all_none (oracle : Oracle) (p : String)
    (h : ∀ o ∈ oracle, o = none) : (call_openai_api oracle p).1 = "" := by
  cases oracle with
  | nil => rfl
  | cons o rest =>
    have ho := h o (List.mem_cons_self o rest)
    subst ho; rfl

theorem get_college_info_fst_ne_nil_of_all_none (oracle : Oracle)
    (college : String) (majors : List String) (h : ∀ o ∈ oracle, o = none) :
    (get_college_info oracle college majors).1 ≠ [] := by
  simp only [get_college_info,
    call_openai_api_fst_of_all_none oracle (college_basic_prompt college) h]
  simp

theorem get_college_info_fst_ne_nil_of_no_majors (oracle : Oracle)
    (college : String) : (get_college_info oracle college []).1 ≠ [] := by
  simp only [get_college_info]
  simp

theorem get_last_interaction_append_self (log : List InteractionRecord)
    (sid : String) (r : InteractionRecord) (h : r.session_id = sid) :
    get_last_interaction (log ++ [r]) sid = some r := by
  unfold get_last_interaction
  rw [List.filter_append]
  simp [h, List.getLast?_concat]

theorem college_foldl_fst_ne_nil (college : String) (majors : List String) :
    ∀ acc : List String × Oracle,
      none ∈ acc.2.take majors.length ∨ acc.2.length < majors.length ∨
        acc.1 ≠ [] →
      (majors.foldl (college_major_step college) acc).1 ≠ [] := by
  induction majors with
  | nil =>
    intro acc h
    simp only [List.foldl_nil]
    rcases h with h | h | h
    · simp at h
    · simp at h
    · exact h
  | cons major ms ih =>
    intro acc h
    simp only [List.foldl_cons]
    apply ih
    rcases h with h | h | h
    · cases hacc : acc.2 with
      | nil => rw [hacc] at h; simp at h
      | cons o tail =>
        cases o with
        | none =>
          refine Or.inr (Or.inr ?_)
          simp [college_major_step, call_openai_api, hacc]
        | some str =>
          rw [hacc] at h
          simp only [List.length_cons, List.take_succ_cons, List.mem_cons] at h
          rcases h with h | h
          · simp at h
          · refine Or.inl ?_
            have h2 : (college_major_step college acc major).2 = tail := by
              simp [college_major_step, call_openai_api, hacc]
            rw [h2]
            exact h
    · cases hacc : acc.2 with
      | nil =>
        refine Or.inr (Or.inr ?_)
        simp [college_major_step, call_openai_api, hacc]
      | cons o tail =>
        rw [hacc] at h
        simp only [List.length_cons] at h
        cases o with
        | none =>
          refine Or.inr (Or.inr ?_)
          simp [college_major_step, call_openai_api, hacc]
        | some str =>
          refine Or.inr (Or.inl ?_)
          have h2 : (college_major_step college acc major).2 = tail := by
            simp [college_major_step, call_openai_api, hacc]
          rw [h2]
          omega
    · refine Or.inr (Or.inr ?_)
      simp only [college_major_step]
      intro hc
      rw [List.append_eq_nil] at hc
      exact h hc.1

theorem get_college_info_fst_ne_nil_of_failure (oracle : Oracle)
    (college : String) (majors : List String)
    (h : none ∈ oracle.take (majors.length + 1) ∨
         oracle.length ≤ majors.length) :
    (get_college_info oracle college majors).1 ≠ [] := by
  cases oracle with
  | nil => simp [get_college_info, call_openai_api]
  | cons o tail =>
    cases o with
    | none => simp [get_college_info, call_openai_api]
    | some str =>
      by_cases hm : majors = []
      · subst hm
        rcases h with h | h
        · simp at h
        · simp at h
      · have hdisj : none ∈ tail.take majors.length ∨
            tail.length < majors.length ∨ ([] : List String) ≠ [] := by
          rcases h with h | h
          · simp only [List.take_succ_cons, List.mem_cons] at h
            rcases h with h | h
            · exact absurd h (by simp)
            · exact Or.inl h
          · simp only [List.length_cons] at h
            exact Or.inr (Or.inl (by omega))
        have hfold := college_foldl_fst_ne_nil college majors ([], tail) hdisj
        simp only [get_college_info, call_openai_api]
        rw [if_pos hm]
        intro hc
        rw [List.append_eq_nil] at hc
        exact hfold hc.2

/-! ## Claim C1 -/

/-- C1, counterexample: on the single-line input
`"1. Biology, 2) Chemistry, - Physics, *Math*"` the parser does NOT return
the four items `["Biology", "Chemistry", "Physics", "Math"]` — commas are not
delimiters, so the whole line survives as one item. -/
theorem C1_counterexample :
    parse_majors_list "1. Biology, 2) Chemistry, - Physics, *Math*" ≠
      ["Biology", "Chemistry", "Physics", "Math"] := by decide

/-- C1, amended: the parser splits candidate items on newlines only (commas
are not delimiters) and strips bullet punctuation and leading numeric
ordinals; the single-line input of the claim therefore yields the single item
`"Biology, 2) Chemistry, - Physics, Math"`, while the newline-separated
variant of the same list yields exactly
`["Biology", "Chemistry", "Physics", "Math"]`. -/
theorem C1_amended :
    parse_majors_list "1. Biology, 2) Chemistry, - Physics, *Math*" =
      ["Biology, 2) Chemistry, - Physics, Math"] ∧
    parse_majors_list "1. Biology\n2) Chemistry\n- Physics\n*Math*" =
      ["Biology", "Chemistry", "Physics", "Math"] := by decide

/-! ## Claim C3 -/

/-- C3, counterexample: after `ASK_NAME` input "Jordan" (stored with the
`MAIN_MENU` record) a later no-name append (the `ASK_CAREER` transition)
writes an empty `name`, so the session's latest record no longer reports
"Jordan". -/
theorem C3_counterexample :
    (get_last_interaction c3_log3 "S").map InteractionRecord.name ≠
      some "Jordan" := by decide

/-- C3, amended: the code does not carry the name forward.  After `ASK_NAME`
input "Jordan" the appended record holds name "Jordan" and state `MAIN_MENU`;
but a later append that supplies no name stores an empty name field, so the
session's latest record reports `""`, and "Jordan" survives only in the
earlier record of the session's history. -/
theorem C3_amended :
    get_last_interaction c3_log2 "S" =
      some ⟨"S", "Jordan", "t1", "MAIN_MENU", "", ""⟩ ∧
    (get_last_interaction c3_log3 "S").map InteractionRecord.name = some "" ∧
    (get_last_interaction c3_log3 "S").map InteractionRecord.current_state =
      some "ASK_CAREER" ∧
    (c3_log3.map InteractionRecord.name).filter (fun n => n ≠ "") =
      ["Jordan"] := by decide

/-! ## Claim C4 -/

/-- C4, counterexample: a request that supplies a session id and the message
"init" gets the greeting, but NO record is appended — the `ASK_NAME` record
is only written for requests without a session id, before the INIT check. -/
theorem C4_counterexample :
    (chat [] id "F" "t" [] "init" (some "S")).log = [] ∧
    (chat [] id "F" "t" [] "init" (some "S")).response = initResponse := by
  decide

/-- C4, amended: for every message equal to "INIT" under case-insensitive
comparison the response is the greeting plus name prompt tagged `ASK_NAME`;
a record with `current_state=ASK_NAME` is appended only when the request
carries no (or an empty) session id, and the log is untouched otherwise. -/
theorem C4_amended (oracle : Oracle) (sanitize : String → String)
    (freshId now : String) (log : List InteractionRecord) (message : String)
    (csid : Option String) (h : pyUpper (pyStrip message) = "INIT") :
    (chat oracle sanitize freshId now log message csid).response =
      initResponse ∧
    (chat oracle sanitize freshId now log message csid).log =
      (if csid.getD "" = "" then
        add_interaction log freshId none (some "ASK_NAME") none none now
      else log) := by
  simp only [chat]
  rw [h]
  simp only [eq_self_iff_true, if_true]
  by_cases hc : csid.getD "" = "" <;> simp [hc]

/-- C4, witness for the amended theorem at the concrete input " init " with
session id "S" supplied. -/
theorem C4_witness :
    pyUpper (pyStrip " init ") = "INIT" ∧
    ((chat [] id "F" "t" [] " init " (some "S")).response = initResponse ∧
     (chat [] id "F" "t" [] " init " (some "S")).log =
       (if (some "S").getD "" = "" then
         add_interaction [] "F" none (some "ASK_NAME") none none "t"
       else [])) :=
  ⟨by decide, C4_amended [] id "F" "t" [] " init " (some "S") (by decide)⟩

/-! ## Claim C10 -/

/-- C10, counterexample: a generation reply that is non-empty but consists of
the bare marker `"<h2>"` contributes zero sections, so with a non-empty
majors list `get_college_info` can return no sections at all, and the
`ASK_COLLEGE` error branch of `chat` (re-prompting with `[ASK_COLLEGE]`) is
reachable. -/
theorem C10_counterexample :
    (get_college_info [some "<h2>", some "<h2>"] "X" ["M"]).1 = [] ∧
    (chat [some "<h2>", some "<h2>"] id "F" "t2" c10_log "X" (some "S")).response =
      collegeFailResponse := by decide

/-- C10, amended: `get_college_info` returns at least one section whenever
every generation sub-call fails (fallback sections are substituted) and also
whenever the majors list is empty; but a successful sub-call whose text has
no non-whitespace content outside `<h2>` markers contributes no sections, so
with a non-empty majors list the result can be empty and the `ASK_COLLEGE`
error branch is reachable. -/
theorem C10_amended :
    (∀ (oracle : Oracle) (college : String) (majors : List String),
      (∀ o ∈ oracle, o = none) →
      (get_college_info oracle college majors).1 ≠ []) ∧
    (∀ (oracle : Oracle) (college : String),
      (get_college_info oracle college []).1 ≠ []) :=
  ⟨fun oracle college majors h =>
    get_college_info_fst_ne_nil_of_all_none oracle college majors h,
   fun oracle college => get_college_info_fst_ne_nil_of_no_majors oracle college⟩

/-- C10, witness for the amended theorem: an all-failing trace with one
selected major, and an empty majors list, both yield a non-empty section
list. -/
theorem C10_witness :
    (∀ o ∈ ([none] : Oracle), o = none) ∧
    (get_college_info [none] "X" ["M"]).1 ≠ [] ∧
    (get_college_info [] "Y" []).1 ≠ [] :=
  ⟨by decide, C10_amended.1 [none] "X" ["M"] (by decide), C10_amended.2 [] "Y"⟩

/-! ## Claim C5 -/

/-- C5: for every gateway trace, sanitizer, fresh id, timestamp, log, message
and session id, the response produced by the `/chat` body ends with the wire
token `<br><strong>[STATE]</strong>` of one of the five states; the body of
the top-level exception handler (the only other exit of the endpoint, a fixed
apology with no internal error detail) carries the tag too, so every payload
that crosses the boundary is well-formed and tagged. -/
theorem C5_every_response_tagged (oracle : Oracle) (sanitize : String → String)
    (freshId now : String) (log : List InteractionRecord) (message : String)
    (csid : Option String) :
    HasStateTag (chat oracle sanitize freshId now log message csid).response ∧
    HasStateTag chat_error_response := by
  refine ⟨?_, by decide⟩
  simp only [chat]
  repeat' split
  all_goals dsimp only
  all_goals first
    | decide
    | (apply hasStateTag_append; decide)

/-! ## Claim C2 -/

/-- C2, counterexample: there is no retry loop.  With a gateway trace whose
first outcome is a failure and whose second outcome would parse to exactly 4
majors, the `ASK_CAREER` turn returns the failure re-prompt after consuming
only the first outcome — the second, which a retrying implementation with any
attempt budget above one would have used, is left unconsumed. -/
theorem C2_counterexample :
    (chat [none, some "1. Art\n2. Bio\n3. Chem\n4. Drama"] id "F" "t1" c2_log
        "medicine" (some "S")).response = careerApiFailResponse ∧
    (chat [none, some "1. Art\n2. Bio\n3. Chem\n4. Drama"] id "F" "t1" c2_log
        "medicine" (some "S")).oracle =
      [some "1. Art\n2. Bio\n3. Chem\n4. Drama"] ∧
    (chat [none, some "1. Art\n2. Bio\n3. Chem\n4. Drama"] id "F" "t1" c2_log
        "medicine" (some "S")).log = c2_log ∧
    parse_majors_list "1. Art\n2. Bio\n3. Chem\n4. Drama" =
      ["Art", "Bio", "Chem", "Drama"] := by decide

/-- C2, amended: the majors-generation path makes exactly one generation
attempt per turn (no retry, no corrective prompt); when that attempt fails
the gateway call itself yields the empty string rather than an exception, the
response is the re-prompt tagged `[ASK_CAREER]`, no record is appended, and
the session's state therefore remains `ASK_CAREER`. -/
theorem C2_amended (rest : Oracle) (sanitize : String → String)
    (freshId now : String) (log : List InteractionRecord) (message sid : String)
    (r : InteractionRecord)
    (hsid : ¬ sid = "") (hinit : ¬ pyUpper (pyStrip message) = "INIT")
    (hlast : get_last_interaction log sid = some r)
    (hst : r.current_state = "ASK_CAREER") :
    (call_openai_api (none :: rest)
        (majors_list_prompt (sanitize (pyStrip message)))).1 = "" ∧
    (chat (none :: rest) sanitize freshId now log message (some sid)).log = log ∧
    (chat (none :: rest) sanitize freshId now log message (some sid)).response =
      careerApiFailResponse ∧
    (chat (none :: rest) sanitize freshId now log message (some sid)).oracle =
      rest ∧
    (get_last_interaction
        (chat (none :: rest) sanitize freshId now log message (some sid)).log
        sid).map InteractionRecord.current_state = some "ASK_CAREER" := by
  have hrun :
      chat (none :: rest) sanitize freshId now log message (some sid) =
        { log := log, response := careerApiFailResponse, session_id := sid,
          oracle := rest } := by
    simp [chat, hlast, hst, hsid, hinit, call_openai_api]
  refine ⟨rfl, ?_, ?_, ?_, ?_⟩ <;> rw [hrun]
  simp [hlast, hst]

/-- C2, witness: the amended theorem applied in a concrete `ASK_CAREER`
session with a failing single-outcome trace. -/
theorem C2_witness :
    (¬ "S" = "" ∧ ¬ pyUpper (pyStrip "medicine") = "INIT" ∧
     get_last_interaction c2_log "S" =
       some ⟨"S", "Jordan", "t0", "ASK_CAREER", "", ""⟩ ∧
     InteractionRecord.current_state ⟨"S", "Jordan", "t0", "ASK_CAREER", "", ""⟩ =
       "ASK_CAREER") ∧
    ((call_openai_api [none] (majors_list_prompt (id (pyStrip "medicine")))).1 = "" ∧
     (chat [none] id "F" "t1" c2_log "medicine" (some "S")).log = c2_log ∧
     (chat [none] id "F" "t1" c2_log "medicine" (some "S")).response =
       careerApiFailResponse ∧
     (chat [none] id "F" "t1" c2_log "medicine" (some "S")).oracle = [] ∧
     (get_last_interaction
         (chat [none] id "F" "t1" c2_log "medicine" (some "S")).log "S").map
       InteractionRecord.current_state = some "ASK_CAREER") :=
  ⟨⟨by decide, by decide, by decide, by decide⟩,
   C2_amended [] id "F" "t1" c2_log "medicine" "S"
     ⟨"S", "Jordan", "t0", "ASK_CAREER", "", ""⟩
     (by decide) (by decide) (by decide) (by decide)⟩

/-! ## Claim C6 -/

/-- C6: in state `ASK_COLLEGE`, for every input text and every gateway trace,
a record with `current_state=MAIN_MENU` and `college_researched` equal to the
sanitized input is appended (before the generation calls, so it is never
rolled back) and the session's next dispatch state is `MAIN_MENU`; and when
one or more of the turn's generation sub-calls fail (some outcome among the
consumed prefix — one basic call plus one call per selected major — is a
raised exception, or the trace is exhausted), the turn still completes with
the composite response assembled from the remaining sections and the
substituted fallback sections, tagged `[MAIN_MENU]`. -/
theorem C6_theorem (oracle : Oracle) (sanitize : String → String)
    (freshId now : String) (log : List InteractionRecord) (message sid : String)
    (r : InteractionRecord)
    (hsid : ¬ sid = "") (hinit : ¬ pyUpper (pyStrip message) = "INIT")
    (hlast : get_last_interaction log sid = some r)
    (hst : r.current_state = "ASK_COLLEGE") :
    (chat oracle sanitize freshId now log message (some sid)).log =
      log ++ [⟨sid, "", now, "MAIN_MENU", "", sanitize (pyStrip message)⟩] ∧
    (get_last_interaction
        (chat oracle sanitize freshId now log message (some sid)).log sid).map
      InteractionRecord.current_state = some "MAIN_MENU" ∧
    (none ∈ oracle.take ((get_user_majors log sid).length + 1) ∨
        oracle.length ≤ (get_user_majors log sid).length →
      (chat oracle sanitize freshId now log message (some sid)).response =
        format_response
          (get_college_info oracle (sanitize (pyStrip message))
            (get_user_majors log sid)).1 ++
          "<br>What else would you like to know?<br><strong>[MAIN_MENU]</strong>" ∧
      (stateTagToken "MAIN_MENU").data <:+
        (chat oracle sanitize freshId now log message (some sid)).response.data) := by
  have hlog : (chat oracle sanitize freshId now log message (some sid)).log =
      log ++ [⟨sid, "", now, "MAIN_MENU", "", sanitize (pyStrip message)⟩] := by
    simp [chat, hlast, hst, hsid, hinit, apply_ite ChatResult.log, add_interaction]
  refine ⟨hlog, ?_, ?_⟩
  · rw [hlog, get_last_interaction_append_self log sid _ rfl]
    rfl
  · intro hfail
    have hne := get_college_info_fst_ne_nil_of_failure oracle
      (sanitize (pyStrip message)) (get_user_majors log sid) hfail
    have hresp : (chat oracle sanitize freshId now log message (some sid)).response =
        format_response
          (get_college_info oracle (sanitize (pyStrip message))
            (get_user_majors log sid)).1 ++
          "<br>What else would you like to know?<br><strong>[MAIN_MENU]</strong>" := by
      simp [chat, hlast, hst, hsid, hinit, hne]
    refine ⟨hresp, ?_⟩
    rw [hresp, string_data_append]
    exact List.IsSuffix.trans (by decide) (List.suffix_append _ _)

/-- C6, witness: a session sitting in `ASK_COLLEGE` with the selected major
"Biology", message "MIT", and a mixed trace on which the basic-info call
succeeds but the per-major call raises — a partial failure: the appended
record stands and the turn completes with the shorter composite response. -/
theorem C6_witness :
    (¬ "S" = "" ∧ ¬ pyUpper (pyStrip "MIT") = "INIT" ∧
     get_last_interaction c6_log "S" = some ⟨"S", "", "t1", "ASK_COLLEGE", "", ""⟩ ∧
     InteractionRecord.current_state ⟨"S", "", "t1", "ASK_COLLEGE", "", ""⟩ =
       "ASK_COLLEGE" ∧
     (none ∈ ([some "<h2>OVERVIEW</h2>fine", none] : Oracle).take
         ((get_user_majors c6_log "S").length + 1) ∨
       ([some "<h2>OVERVIEW</h2>fine", none] : Oracle).length ≤
         (get_user_majors c6_log "S").length)) ∧
    ((chat [some "<h2>OVERVIEW</h2>fine", none] id "F" "t2" c6_log "MIT"
         (some "S")).log =
       c6_log ++ [⟨"S", "", "t2", "MAIN_MENU", "", id (pyStrip "MIT")⟩] ∧
     (get_last_interaction
         (chat [some "<h2>OVERVIEW</h2>fine", none] id "F" "t2" c6_log "MIT"
           (some "S")).log "S").map
       InteractionRecord.current_state = some "MAIN_MENU" ∧
     (none ∈ ([some "<h2>OVERVIEW</h2>fine", none] : Oracle).take
         ((get_user_majors c6_log "S").length + 1) ∨
       ([some "<h2>OVERVIEW</h2>fine", none] : Oracle).length ≤
         (get_user_majors c6_log "S").length →
      (chat [some "<h2>OVERVIEW</h2>fine", none] id "F" "t2" c6_log "MIT"
          (some "S")).response =
        format_response
          (get_college_info [some "<h2>OVERVIEW</h2>fine", none]
            (id (pyStrip "MIT")) (get_user_majors c6_log "S")).1 ++
          "<br>What else would you like to know?<br><strong>[MAIN_MENU]</strong>" ∧
      (stateTagToken "MAIN_MENU").data <:+
        (chat [some "<h2>OVERVIEW</h2>fine", none] id "F" "t2" c6_log "MIT"
            (some "S")).response.data)) :=
  ⟨⟨by decide, by decide, by decide, by decide, by decide⟩,
   C6_theorem [some "<h2>OVERVIEW</h2>fine", none] id "F" "t2" c6_log "MIT" "S"
     ⟨"S", "", "t1", "ASK_COLLEGE", "", ""⟩
     (by decide) (by decide) (by decide) (by decide)⟩

/-! ## Claim C7 -/

/-- C7: an unrecognized `MAIN_MENU` choice (none of the three menu options
matches case-insensitively) and an unrecognized `SHOW_MAJORS` selection (no
valid index, no exact name match) both leave the interaction log unchanged —
so the session's last record, and with it the dispatch state, are exactly as
before — and re-display the same state's valid options tagged with the
unchanged state. -/
theorem C7_theorem :
    (∀ (oracle : Oracle) (sanitize : String → String) (freshId now : String)
       (log : List InteractionRecord) (message sid : String)
       (r : InteractionRecord),
      ¬ sid = "" → ¬ pyUpper (pyStrip message) = "INIT" →
      get_last_interaction log sid = some r → r.current_state = "MAIN_MENU" →
      ¬ pyLower (pyStrip message) = "explore careers and majors" →
      ¬ pyLower (pyStrip message) = "research colleges" →
      ¬ pyLower (pyStrip message) = "get application advice" →
      (chat oracle sanitize freshId now log message (some sid)).log = log ∧
      (chat oracle sanitize freshId now log message (some sid)).response =
        menuReprompt ∧
      get_last_interaction
        (chat oracle sanitize freshId now log message (some sid)).log sid =
        some r) ∧
    (∀ (oracle : Oracle) (sanitize : String → String) (freshId now : String)
       (log : List InteractionRecord) (message sid : String)
       (r : InteractionRecord),
      ¬ sid = "" → ¬ pyUpper (pyStrip message) = "INIT" →
      get_last_interaction log sid = some r → r.current_state = "SHOW_MAJORS" →
      show_majors_selection (pySplitOn ", " r.major_selected)
        (pyStrip message) = none →
      (chat oracle sanitize freshId now log message (some sid)).log = log ∧
      (chat oracle sanitize freshId now log message (some sid)).response =
        "Please select a major from the list by typing the number or the name:<br><br>" ++
          majorsHtml (pySplitOn ", " r.major_selected) ++
          "<br><strong>[SHOW_MAJORS]</strong>" ∧
      get_last_interaction
        (chat oracle sanitize freshId now log message (some sid)).log sid =
        some r) := by
  constructor
  · intro oracle sanitize freshId now log message sid r hsid hinit hlast hst h1 h2 h3
    have hrun : chat oracle sanitize freshId now log message (some sid) =
        { log := log, response := menuReprompt, session_id := sid,
          oracle := oracle } := by
      simp [chat, hlast, hst, hsid, hinit, h1, h2, h3]
    rw [hrun]
    exact ⟨rfl, rfl, hlast⟩
  · intro oracle sanitize freshId now log message sid r hsid hinit hlast hst hsel
    have hrun : chat oracle sanitize freshId now log message (some sid) =
        { log := log,
          response :=
            "Please select a major from the list by typing the number or the name:<br><br>" ++
              majorsHtml (pySplitOn ", " r.major_selected) ++
              "<br><strong>[SHOW_MAJORS]</strong>",
          session_id := sid, oracle := oracle } := by
      simp [chat, hlast, hst, hsid, hinit, hsel]
    rw [hrun]
    exact ⟨rfl, rfl, hlast⟩

/-- C7, witness: an unmatched menu choice "advice please" in `MAIN_MENU`, and
the unmatched selection "Philosophy" in `SHOW_MAJORS`, each leave the log and
last record as they were and re-display the options. -/
theorem C7_witness :
    (¬ "S" = "" ∧ ¬ pyUpper (pyStrip "advice please") = "INIT" ∧
     get_last_interaction c7_log "S" =
       some ⟨"S", "Jordan", "t0", "MAIN_MENU", "", ""⟩ ∧
     ¬ pyLower (pyStrip "advice please") = "explore careers and majors" ∧
     show_majors_selection
       (pySplitOn ", " "Biology, Chemistry, Physics, Math")
       (pyStrip "Philosophy") = none) ∧
    ((chat [] id "F" "t1" c7_log "advice please" (some "S")).log = c7_log ∧
     (chat [] id "F" "t1" c7_log "advice please" (some "S")).response =
       menuReprompt ∧
     get_last_interaction
       (chat [] id "F" "t1" c7_log "advice please" (some "S")).log "S" =
       some ⟨"S", "Jordan", "t0", "MAIN_MENU", "", ""⟩) ∧
    ((chat [] id "F" "t1" c8_log "Philosophy" (some "S")).log = c8_log ∧
     (chat [] id "F" "t1" c8_log "Philosophy" (some "S")).response =
       "Please select a major from the list by typing the number or the name:<br><br>" ++
         majorsHtml (pySplitOn ", " "Biology, Chemistry, Physics, Math") ++
         "<br><strong>[SHOW_MAJORS]</strong>" ∧
     get_last_interaction
       (chat [] id "F" "t1" c8_log "Philosophy" (some "S")).log "S" =
       some ⟨"S", "Jordan", "t0", "SHOW_MAJORS",
             "Biology, Chemistry, Physics, Math", ""⟩) :=
  ⟨⟨by decide, by decide, by decide, by decide, by decide⟩,
   C7_theorem.1 [] id "F" "t1" c7_log "advice please" "S"
     ⟨"S", "Jordan", "t0", "MAIN_MENU", "", ""⟩
     (by decide) (by decide) (by decide) (by decide) (by decide) (by decide)
     (by decide),
   C7_theorem.2 [] id "F" "t1" c8_log "Philosophy" "S"
     ⟨"S", "Jordan", "t0", "SHOW_MAJORS", "Biology, Chemistry, Physics, Math", ""⟩
     (by decide) (by decide) (by decide) (by decide) (by decide)⟩

/-! ## Claim C8 -/

/-- C8: in state `SHOW_MAJORS` with stored majors `M`, a numeric input whose
value `k` satisfies `1 ≤ k ≤ length M` selects the `k`-th stored major
(1-based), a record with `current_state=MAIN_MENU` and `major_selected` equal
to that major is appended, and the session's next dispatch state is
`MAIN_MENU`. -/
theorem C8_theorem (oracle : Oracle) (sanitize : String → String)
    (freshId now : String) (log : List InteractionRecord) (message sid : String)
    (r : InteractionRecord) (k : Nat)
    (hsid : ¬ sid = "") (hinit : ¬ pyUpper (pyStrip message) = "INIT")
    (hlast : get_last_interaction log sid = some r)
    (hst : r.current_state = "SHOW_MAJORS")
    (hdig : pyIsdigit (pyStrip message) = true)
    (hk : digitsToNat (pyStrip message).data = k)
    (hk1 : 1 ≤ k) (hk2 : k ≤ (pySplitOn ", " r.major_selected).length) :
    show_majors_selection (pySplitOn ", " r.major_selected) (pyStrip message) =
      some ((pySplitOn ", " r.major_selected).getD (k - 1) "") ∧
    (chat oracle sanitize freshId now log message (some sid)).log =
      log ++ [⟨sid, "", now, "MAIN_MENU",
              (pySplitOn ", " r.major_selected).getD (k - 1) "", ""⟩] ∧
    (get_last_interaction
        (chat oracle sanitize freshId now log message (some sid)).log sid).map
      InteractionRecord.current_state = some "MAIN_MENU" := by
  have hcond : (0 : Int) ≤ (k : Int) - 1 ∧
      (k : Int) - 1 < ((pySplitOn ", " r.major_selected).length : Int) := by
    constructor <;> omega
  have htn : ((k : Int) - 1).toNat = k - 1 := by omega
  have hsel : show_majors_selection (pySplitOn ", " r.major_selected)
      (pyStrip message) =
      some ((pySplitOn ", " r.major_selected).getD (k - 1) "") := by
    simp only [show_majors_selection, hdig, if_true, hk]
    rw [if_pos hcond, htn]
  have hlog : (chat oracle sanitize freshId now log message (some sid)).log =
      log ++ [⟨sid, "", now, "MAIN_MENU",
              (pySplitOn ", " r.major_selected).getD (k - 1) "", ""⟩] := by
    simp [chat, hlast, hst, hsid, hinit, hsel, add_interaction]
  refine ⟨hsel, hlog, ?_⟩
  rw [hlog, get_last_interaction_append_self log sid _ rfl]
  rfl

/-- C8, witness: with stored majors "Biology, Chemistry, Physics, Math" and
input "2" the selection resolves to "Chemistry" and the appended record
carries it. -/
theorem C8_witness :
    (¬ "S" = "" ∧ ¬ pyUpper (pyStrip "2") = "INIT" ∧
     get_last_interaction c8_log "S" =
       some ⟨"S", "Jordan", "t0", "SHOW_MAJORS",
             "Biology, Chemistry, Physics, Math", ""⟩ ∧
     pyIsdigit (pyStrip "2") = true ∧
     digitsToNat (pyStrip "2").data = 2 ∧
     (pySplitOn ", " "Biology, Chemistry, Physics, Math").getD (2 - 1) "" =
       "Chemistry") ∧
    (show_majors_selection
       (pySplitOn ", " "Biology, Chemistry, Physics, Math") (pyStrip "2") =
       some ((pySplitOn ", " "Biology, Chemistry, Physics, Math").getD (2 - 1) "") ∧
     (chat [none] id "F" "t1" c8_log "2" (some "S")).log =
       c8_log ++ [⟨"S", "", "t1", "MAIN_MENU",
                  (pySplitOn ", " "Biology, Chemistry, Physics, Math").getD
                    (2 - 1) "", ""⟩] ∧
     (get_last_interaction
         (chat [none] id "F" "t1" c8_log "2" (some "S")).log "S").map
       InteractionRecord.current_state = some "MAIN_MENU") :=
  ⟨⟨by decide, by decide, by decide, by decide, by decide, by decide⟩,
   C8_theorem [none] id "F" "t1" c8_log "2" "S"
     ⟨"S", "Jordan", "t0", "SHOW_MAJORS", "Biology, Chemistry, Physics, Math", ""⟩
     2 (by decide) (by decide) (by decide) (by decide) (by decide) (by decide)
     (by decide) (by decide)⟩

/-! ## Claim C9 -/

/-- C9: in the `SHOW_MAJORS` selection logic, an all-digits input is
interpreted exclusively as a 1-based index — it selects the indexed major
when in range and selects nothing when out of range, never falling through to
name matching — and the name-match path compares the raw message to the
stored majors with case-sensitive string equality, so a non-digit input
matches exactly when it is literally one of the stored majors. -/
theorem C9_theorem :
    (∀ (majors : List String) (msg : String), pyIsdigit msg = true →
      show_majors_selection majors msg =
        (if 1 ≤ digitsToNat msg.data ∧ digitsToNat msg.data ≤ majors.length
         then some (majors.getD (digitsToNat msg.data - 1) "")
         else none)) ∧
    (∀ (majors : List String) (msg : String), pyIsdigit msg = false →
      majors.contains msg = false → show_majors_selection majors msg = none) ∧
    (∀ (majors : List String) (msg : String), pyIsdigit msg = false →
      majors.contains msg = true → show_majors_selection majors msg = some msg) := by
  refine ⟨?_, ?_, ?_⟩
  · intro majors msg hdig
    simp only [show_majors_selection, hdig, if_true]
    by_cases h : 1 ≤ digitsToNat msg.data ∧ digitsToNat msg.data ≤ majors.length
    · obtain ⟨h1, h2⟩ := h
      have hc : (0 : Int) ≤ (digitsToNat msg.data : Int) - 1 ∧
          (digitsToNat msg.data : Int) - 1 < (majors.length : Int) :=
        ⟨by omega, by omega⟩
      have ht : ((digitsToNat msg.data : Int) - 1).toNat =
          digitsToNat msg.data - 1 := by omega
      rw [if_pos hc, if_pos ⟨h1, h2⟩, ht]
    · have hc : ¬ ((0 : Int) ≤ (digitsToNat msg.data : Int) - 1 ∧
          (digitsToNat msg.data : Int) - 1 < (majors.length : Int)) := by
        intro hcc
        obtain ⟨hc1, hc2⟩ := hcc
        exact h ⟨by omega, by omega⟩
      rw [if_neg hc, if_neg h]
  · intro majors msg hdig hmem
    have hnm : msg ∉ majors := by simpa using hmem
    simp [show_majors_selection, hdig, hnm]
  · intro majors msg hdig hmem
    have hm : msg ∈ majors := by simpa using hmem
    simp [show_majors_selection, hdig, hm]

/-- C9, witness: with stored majors "10, 20" the digit input "10" selects
nothing (index 10 is out of range and the exact-match path is never tried,
although "10" is literally a stored major); with stored majors
"Biology, Chemistry, Physics, Math", the input "chemistry" (wrong case)
selects nothing while "Chemistry" selects itself. -/
theorem C9_witness :
    (pyIsdigit "10" = true ∧
     (pySplitOn ", " "10, 20").contains "10" = true ∧
     pyIsdigit "chemistry" = false ∧
     (pySplitOn ", " "Biology, Chemistry, Physics, Math").contains
       "chemistry" = false ∧
     pyIsdigit "Chemistry" = false ∧
     (pySplitOn ", " "Biology, Chemistry, Physics, Math").contains
       "Chemistry" = true) ∧
    (show_majors_selection (pySplitOn ", " "10, 20") "10" =
       (if 1 ≤ digitsToNat ("10" : String).data ∧
           digitsToNat ("10" : String).data ≤ (pySplitOn ", " "10, 20").length
        then some ((pySplitOn ", " "10, 20").getD
          (digitsToNat ("10" : String).data - 1) "")
        else none) ∧
     show_majors_selection (pySplitOn ", " "Biology, Chemistry, Physics, Math")
       "chemistry" = none ∧
     show_majors_selection (pySplitOn ", " "Biology, Chemistry, Physics, Math")
       "Chemistry" = some "Chemistry") ∧
    show_majors_selection (pySplitOn ", " "10, 20") "10" = none :=
  ⟨⟨by decide, by decide, by decide, by decide, by decide, by decide⟩,
   ⟨C9_theorem.1 (pySplitOn ", " "10, 20") "10" (by decide),
    C9_theorem.2.1 (pySplitOn ", " "Biology, Chemistry, Physics, Math")
      "chemistry" (by decide) (by decide),
    C9_theorem.2.2 (pySplitOn ", " "Biology, Chemistry, Physics, Math")
      "Chemistry" (by decide) (by decide)⟩,
   by decide⟩
